import Mathlib

/-! Shallow embedding of units.py: alias-matched units, category unit sets,
the fixed units registry, and density-bridged ingredient conversion.
Magnitudes, ratios, offsets and densities are modelled as rationals. -/

/-- Backspace character, U+0008. The source builds its match pattern as a plain
(non-raw) string, so the escape written in it denotes this character rather than
a regex word boundary. -/
def backspaceChar : Char := Char.ofNat 8

/-- Comparison of one pattern character against one input character. A dot in
the alias is a regex wildcard matching any character except a newline; other
characters compare literally, folded to lower case in ignore-case mode. -/
def charMatches (ci : Bool) (p c : Char) : Bool :=
  if p == '.' then c != '\n'
  else if ci then p.toLower == c.toLower
  else p == c

/-- Consume an alias pattern at the front of the input; on success return the
remaining input. -/
def patConsume (ci : Bool) : List Char → List Char → Option (List Char)
  | [], s => some s
  | _ :: _, [] => none
  | p :: ps, c :: cs => if charMatches ci p c then patConsume ci ps cs else none

/-- Optionally consume one literal character (the s? and dot? parts of the
pattern), honouring ignore-case mode. -/
def dropOptChar (ci : Bool) (p : Char) : List Char → List Char
  | [] => []
  | c :: cs => if (if ci then p.toLower == c.toLower else p == c) then cs else c :: cs

/-- Terminator of the pattern: end of input, end just before a single trailing
newline, or a literal backspace character (what the escape in the non-raw
pattern string actually denotes). -/
def termOK : List Char → Bool
  | [] => true
  | [c] => c == backspaceChar || c == '\n'
  | c :: _ :: _ => c == backspaceChar

/-- Match one alias against the input string the way the source regex does:
the alias anchored at the start, an optional s, an optional dot, then the
terminator. -/
def nameMatch (ci : Bool) (n s : List Char) : Bool :=
  match patConsume ci n s with
  | none => false
  | some rest => termOK (dropOptChar ci '.' (dropOptChar ci 's' rest))

/-- Unanchored search of an alias pattern anywhere in the input, as the
ingredient name matcher does (case-sensitively, no trailing options). -/
def reSearch (p s : List Char) : Bool :=
  s.tails.any fun t => (patConsume false p t).isSome

/-- A single named unit with aliases and an affine conversion to its SI base. -/
structure Unit' where
  name : String
  SI_unit : String
  allnames : List String
  SI_ratio : ℚ
  SI_offset : ℚ
  case_sensitive : Bool
  deriving DecidableEq

/-- Unit.match of the source: true when some alias matches per nameMatch,
with case sensitivity taken from the unit. -/
def Unit'.matches (u : Unit') (s : String) : Bool :=
  u.allnames.any fun n => nameMatch (!u.case_sensitive) n.toList s.toList

/-- Unit.convert_to_SI of the source. -/
def Unit'.convert_to_SI (u : Unit') (magnitude : ℚ) : ℚ :=
  magnitude * u.SI_ratio + u.SI_offset

/-- Unit.convert_from_SI of the source. -/
def Unit'.convert_from_SI (u : Unit') (magnitude : ℚ) : ℚ :=
  (magnitude - u.SI_offset) / u.SI_ratio

/-- Error kinds the conversion layer can raise, named as in the specification
(the source raises ValueError with a distinguishing message for each). -/
inductive ConvError where
  | UnmatchedUnitError
  | AmbiguousUnitError
  | MissingDensityError
  | UnmatchedIngredientError
  deriving DecidableEq

/-- Outcome of a conversion: a magnitude together with the result unit name,
or a raised error. -/
inductive ConvResult where
  | ok : ℚ → String → ConvResult
  | err : ConvError → ConvResult
  deriving DecidableEq

/-- A category of units sharing one SI base. -/
structure UnitSet where
  name : String
  SI_unit : String
  units : List Unit'
  deriving DecidableEq

/-- UnitSet.match_unit of the source: first unit in insertion order whose
match succeeds. -/
def UnitSet.match_unit (s : UnitSet) (string : String) : Option Unit' :=
  s.units.find? fun u => u.matches string

/-- UnitSet.convert of the source. -/
def UnitSet.convert (s : UnitSet) (magnitude : ℚ) (unit_name : String)
    (to_unit : Option String) : ConvResult :=
  match s.match_unit unit_name with
  | none => .err .UnmatchedUnitError
  | some u =>
    match to_unit with
    | none => .ok (u.convert_to_SI magnitude) s.SI_unit
    | some t =>
      match s.match_unit t with
      | some to_u => .ok (to_u.convert_from_SI (u.convert_to_SI magnitude)) t
      | none => .err .UnmatchedUnitError

/-- The registry of the three fixed unit sets. -/
structure UnitsHandler where
  volume : UnitSet
  mass : UnitSet
  temperature : UnitSet
  deriving DecidableEq

def literUnit : Unit' :=
  ⟨"liter", "liter", ["liter", "litre", "l", "litr", "ltr"], 1, 0, false⟩

def deciliterUnit : Unit' :=
  ⟨"deciliter", "liter", ["deciliter", "decilitre", "dl"], 0.1, 0, false⟩

def milliliterUnit : Unit' :=
  ⟨"milliliter", "liter", ["milliliter", "millilitre", "ml", "cc"], 0.001, 0, false⟩

def dropUnit : Unit' :=
  ⟨"drop", "liter", ["drop", "d", "dr", "gt", "gtt"], 0.00005, 0, false⟩

def smidgenUnit : Unit' :=
  ⟨"smidgen", "liter", ["smidgen", "smidge", "smidg", "smdgn", "smdg", "smi"], 0.000116, 0, false⟩

def pinchUnit : Unit' :=
  ⟨"pinch", "liter", ["pinch"], 0.000231, 0, false⟩

def dashUnit : Unit' :=
  ⟨"dash", "liter", ["dash", "dsh"], 0.000462, 0, false⟩

def saltspoonUnit : Unit' :=
  ⟨"saltspoon", "liter", ["saltspoon", "scruple", "ssp"], 0.000924, 0, false⟩

def coffeespoonUnit : Unit' :=
  ⟨"coffeespoon", "liter", ["coffeespoon", "csp", "cfespn"], 0.000924, 0, false⟩

def fluidDramUnit : Unit' :=
  ⟨"fluid dram", "liter", ["fluid dram", "fl.dr", "fl. dr", "fldr", "fl dr"], 0.000924, 0, false⟩

/-- Teaspoon; the ratio is the startup value the external unit-algebra
evaluator derives for teaspoon in liters (US teaspoon). -/
def teaspoonUnit : Unit' :=
  ⟨"teaspoon", "liter", ["teaspoon", "Teaspoon", "t", "tsp", "ts"], 0.00492892159375, 0, true⟩

def dessertspoonUnit : Unit' :=
  ⟨"dessertspoon", "liter", ["dessertspoon", "dsp", "dstspn", "dssp", "dsspn", "dspn"], 0.01, 0, false⟩

/-- Tablespoon; ratio derived at startup by the external evaluator. -/
def tablespoonUnit : Unit' :=
  ⟨"tablespoon", "liter",
    ["tablespoon", "Tablespoon", "tbl", "tblspn", "tbspn", "tb", "tbs", "tbsp", "T", "TB",
     "Tbsp", "Tblsp", "Tbl", "Tbs", "TBsp", "TBl"], 0.01478676478125, 0, true⟩

/-- Fluid ounce; ratio derived at startup by the external evaluator. -/
def fluidOunceUnit : Unit' :=
  ⟨"fluid ounce", "liter", ["fluid ounce", "ounce", "fl oz", "floz", "fl. oz", "oz"],
    0.0295735295625, 0, false⟩

def wineglassUnit : Unit' :=
  ⟨"wineglass", "liter", ["wineglass", "wine glass", "wgf", "wg", "winegl", "wngl"], 0.05915, 0, false⟩

def teacupUnit : Unit' :=
  ⟨"teacup", "liter", ["teacup", "gill", "tcf", "tc", "teac"], 0.1189, 0, false⟩

/-- Cup; ratio derived at startup by the external evaluator (US cup in liters). -/
def cupUnit : Unit' :=
  ⟨"cup", "liter", ["cup", "c", "cu"], 0.2365882365, 0, false⟩

/-- Pint; ratio derived at startup by the external evaluator. -/
def pintUnit : Unit' :=
  ⟨"pint", "liter", ["pint", "pnt", "p", "pt", "flpt", "fl pt", "fl. pt", "fl.pt"],
    0.473176473, 0, false⟩

/-- Quart; ratio derived at startup by the external evaluator. -/
def quartUnit : Unit' :=
  ⟨"quart", "liter", ["quart", "quarts", "q", "qt", "fl qt", "fl. qt", "fl.qt"],
    0.946352946, 0, false⟩

def pottleUnit : Unit' :=
  ⟨"pottle", "liter", ["pottle", "ptl"], 1.892, 0, false⟩

/-- Gallon; ratio derived at startup by the external evaluator. -/
def gallonUnit : Unit' :=
  ⟨"gallon", "liter", ["gallon", "g", "ga", "gal", "gall"], 3.785411784, 0, false⟩

/-- Sentinel unit constructed with the invalid ratio and offset of minus one;
the source never appends it to any unit set. -/
def packageUnit : Unit' :=
  ⟨"package", "liter", ["package"], -1, -1, false⟩

/-- Sentinel unit, never appended to any unit set. -/
def bagUnit : Unit' :=
  ⟨"bag", "liter", ["bag"], -1, -1, false⟩

/-- Sentinel unit, never appended to any unit set. -/
def canUnit : Unit' :=
  ⟨"can", "liter", ["can", "cn"], -1, -1, false⟩

def kilogramUnit : Unit' :=
  ⟨"kilogram", "kilogram", ["kilogram", "kg", "kgr", "kigr"], 1, 0, false⟩

def gramUnit : Unit' :=
  ⟨"gram", "kilogram", ["gram", "g", "gr"], 0.001, 0, false⟩

/-- Pound; ratio derived at startup by the external evaluator. -/
def poundUnit : Unit' :=
  ⟨"pound", "kilogram", ["pound", "lb", "lbs"], 0.45359237, 0, false⟩

def fahrenheitUnit : Unit' :=
  ⟨"fahrenheit", "kelvin", ["F", "degF", "deg F"], 5 / 9, 255.372, false⟩

def celsiusUnit : Unit' :=
  ⟨"celsius", "kelvin", ["C", "degC", "deg C"], 1, 273.15, false⟩

/-- Kelvin exactly as the source constructs it: the alias list repeats the
celsius aliases and the offset is one. -/
def kelvinUnit : Unit' :=
  ⟨"kelvin", "kelvin", ["C", "degC", "deg C"], 1, 1, false⟩

/-- The volume unit set in the exact insertion order of the source. -/
def builtinVolume : UnitSet :=
  ⟨"volume", "liter",
    [literUnit, deciliterUnit, milliliterUnit, dropUnit, smidgenUnit, pinchUnit, dashUnit,
     saltspoonUnit, coffeespoonUnit, fluidDramUnit, teaspoonUnit, dessertspoonUnit,
     tablespoonUnit, fluidOunceUnit, wineglassUnit, teacupUnit, cupUnit, pintUnit,
     quartUnit, pottleUnit, gallonUnit]⟩

/-- The mass unit set in the exact insertion order of the source. -/
def builtinMass : UnitSet :=
  ⟨"mass", "kilogram", [kilogramUnit, gramUnit, poundUnit]⟩

/-- The temperature unit set in the exact insertion order of the source. -/
def builtinTemperature : UnitSet :=
  ⟨"temperature", "kelvin", [fahrenheitUnit, celsiusUnit, kelvinUnit]⟩

/-- UnitsHandler as built by its constructor. -/
def builtinUH : UnitsHandler :=
  ⟨builtinVolume, builtinMass, builtinTemperature⟩

/-- A named substance with aliases, an optional density in kilograms per
liter, and the shared units registry. -/
structure Ingredient where
  name : String
  allnames : List String
  density : Option ℚ
  uh : UnitsHandler
  deriving DecidableEq

/-- Ingredient.match_string of the source: unanchored search of any alias
anywhere in the candidate string. -/
def Ingredient.match_string (i : Ingredient) (string : String) : Bool :=
  i.allnames.any fun n => reSearch n.toList string.toList

/-- Ingredient.convert of the source: classify both unit strings against the
volume and mass sets, raise on unmatched or doubly matched strings in the
order of the source, then convert, bridging through density across
categories. -/
def Ingredient.convert (i : Ingredient) (magnitude : ℚ) (from_unit : String)
    (tu0 : Option String) : ConvResult :=
  let to_unit := tu0.getD "liter"
  let v1 := i.uh.volume.match_unit from_unit
  let m1 := i.uh.mass.match_unit from_unit
  let v2 := i.uh.volume.match_unit to_unit
  let m2 := i.uh.mass.match_unit to_unit
  if v1 = none ∧ m1 = none then .err .UnmatchedUnitError
  else if v2 = none ∧ m2 = none then .err .UnmatchedUnitError
  else if v1 ≠ none ∧ m1 ≠ none then .err .AmbiguousUnitError
  else if v2 ≠ none ∧ m2 ≠ none then .err .AmbiguousUnitError
  else
    match v1, m1 with
    | none, some mu1 =>
      let newmag := mu1.convert_to_SI magnitude
      (match v2, m2 with
       | none, some mu2 => .ok (mu2.convert_from_SI newmag) to_unit
       | some vu2, _ =>
         (match i.density with
          | none => .err .MissingDensityError
          | some d => .ok (vu2.convert_from_SI (newmag / d)) to_unit)
       | none, none => .err .UnmatchedUnitError)
    | some vu1, _ =>
      let newmag := vu1.convert_to_SI magnitude
      (match v2, m2 with
       | none, some mu2 =>
         (match i.density with
          | none => .err .MissingDensityError
          | some d => .ok (mu2.convert_from_SI (newmag * d)) to_unit)
       | some vu2, _ => .ok (vu2.convert_from_SI newmag) to_unit
       | none, none => .err .UnmatchedUnitError)
    | none, none => .err .UnmatchedUnitError

/-- Ordered registry of ingredients. -/
structure IngredientsHandler where
  uh : UnitsHandler
  ingredients : List Ingredient
  deriving DecidableEq

/-- IngredientsHandler.add_ingredient of the source, as a pure append. -/
def IngredientsHandler.add_ingredient (h : IngredientsHandler) (name : String)
    (density : Option ℚ) : IngredientsHandler :=
  ⟨h.uh, h.ingredients ++ [⟨name, [name], density, h.uh⟩]⟩

/-- IngredientsHandler.match_name of the source: first ingredient in insertion
order whose match_string succeeds. -/
def IngredientsHandler.match_name (h : IngredientsHandler) (name : String) : Option Ingredient :=
  h.ingredients.find? fun i => i.match_string name

/-- IngredientsHandler.convert of the source. -/
def IngredientsHandler.convert (h : IngredientsHandler) (name : String) (magnitude : ℚ)
    (from_unit to_unit : String) : ConvResult :=
  match h.match_name name with
  | none => .err .UnmatchedIngredientError
  | some i => i.convert magnitude from_unit (some to_unit)

def flourIng : Ingredient := ⟨"flour", ["flour"], some 0.55, builtinUH⟩

def saltIng : Ingredient := ⟨"salt", ["salt"], some 1.2, builtinUH⟩

def sugarIng : Ingredient := ⟨"sugar", ["sugar"], some 0.8, builtinUH⟩

def waterIng : Ingredient := ⟨"water", ["water"], some 1, builtinUH⟩

def butterIng : Ingredient := ⟨"butter", ["butter"], some 0.9, builtinUH⟩

def vanillaIng : Ingredient := ⟨"vanilla", ["vanilla"], none, builtinUH⟩

/-- IngredientsHandler as built by its constructor: the six seed ingredients
in insertion order. -/
def builtinIngredients : IngredientsHandler :=
  ⟨builtinUH, [flourIng, saltIng, sugarIng, waterIng, butterIng, vanillaIng]⟩

/-! Theorems about the embedded program. -/

/-- Helper: the unit-level conversion of an ingredient can raise unit, ambiguity
and density errors only, never the ingredient-lookup error. -/
theorem ingredient_convert_no_ingredient_error (i : Ingredient) (m : ℚ) (fu : String)
    (t0 : Option String) : i.convert m fu t0 ≠ .err .UnmatchedIngredientError := by
  rcases hv1 : i.uh.volume.match_unit fu with _ | u1 <;>
  rcases hm1 : i.uh.mass.match_unit fu with _ | w1 <;>
  rcases hv2 : i.uh.volume.match_unit (t0.getD "liter") with _ | u2 <;>
  rcases hm2 : i.uh.mass.match_unit (t0.getD "liter") with _ | w2 <;>
    simp [Ingredient.convert, hv1, hm1, hv2, hm2] <;>
    cases i.density <;> simp

/-- Claim C1: when from_unit resolves uniquely to a volume unit u and to_unit
uniquely to a mass unit v and the density d is present, convert returns the
target from_SI of the SI value times d with the to_unit name; in the mass to
volume direction it divides by d; and within one single category it returns
target from_SI of source to_SI with no density required. -/
theorem C1_density_bridged_convert (i : Ingredient) (m : ℚ) (fu tu : String) :
    (∀ u v d, i.density = some d →
      i.uh.volume.match_unit fu = some u → i.uh.mass.match_unit fu = none →
      i.uh.volume.match_unit tu = none → i.uh.mass.match_unit tu = some v →
      i.convert m fu (some tu) = .ok (v.convert_from_SI (u.convert_to_SI m * d)) tu) ∧
    (∀ u v d, i.density = some d →
      i.uh.mass.match_unit fu = some u → i.uh.volume.match_unit fu = none →
      i.uh.volume.match_unit tu = some v → i.uh.mass.match_unit tu = none →
      i.convert m fu (some tu) = .ok (v.convert_from_SI (u.convert_to_SI m / d)) tu) ∧
    (∀ u v, i.uh.volume.match_unit fu = some u → i.uh.mass.match_unit fu = none →
      i.uh.volume.match_unit tu = some v → i.uh.mass.match_unit tu = none →
      i.convert m fu (some tu) = .ok (v.convert_from_SI (u.convert_to_SI m)) tu) ∧
    (∀ u v, i.uh.mass.match_unit fu = some u → i.uh.volume.match_unit fu = none →
      i.uh.mass.match_unit tu = some v → i.uh.volume.match_unit tu = none →
      i.convert m fu (some tu) = .ok (v.convert_from_SI (u.convert_to_SI m)) tu) := by
  refine ⟨?_, ?_, ?_, ?_⟩ <;> intros <;> simp_all [Ingredient.convert]

/-- Witness for C1: flour at density 0.55 converts 2 cups into grams through
the density bridge. -/
theorem C1_density_bridged_convert_witness :
    flourIng.convert 2 "cup" (some "gram") =
      .ok (gramUnit.convert_from_SI (cupUnit.convert_to_SI 2 * (0.55 : ℚ))) "gram" :=
  (C1_density_bridged_convert flourIng 2 "cup" "gram").1 cupUnit gramUnit 0.55
    rfl rfl rfl rfl rfl

/-- Claim C2: the source terminates an alias match only at end of string, at a
literal backspace character, or before a single trailing newline, because the
pattern is built as a plain non-raw string; so an alias followed by a space and
further words does not match, contradicting the word-boundary reading. The cup
unit matches cup, cups, cup. but not cup of flour. -/
theorem C2_match_terminator_behavior :
    cupUnit.matches "cup" = true ∧
    cupUnit.matches "cups" = true ∧
    cupUnit.matches "cup." = true ∧
    cupUnit.matches "cups." = true ∧
    cupUnit.matches "cup of flour" = false := by decide

/-- Claim C3: on the temperature unit set the strings celsius and kelvin match
no unit at all, because the aliases are only C, degC and deg C for celsius and,
by a copy slip, the same three for kelvin; so both conversions of the claim
raise UnmatchedUnitError instead of returning 273.15 and 373.15. Through the
alias C the celsius unit itself does normalize 0 and 100 to 273.15 and 373.15
SI kelvins. -/
theorem C3_temperature_name_resolution :
    builtinUH.temperature.match_unit "celsius" = none ∧
    builtinUH.temperature.match_unit "kelvin" = none ∧
    builtinUH.temperature.convert 0 "celsius" (some "kelvin") = .err .UnmatchedUnitError ∧
    builtinUH.temperature.convert 100 "celsius" (some "kelvin") = .err .UnmatchedUnitError ∧
    builtinUH.temperature.convert 0 "C" none = .ok (celsiusUnit.convert_to_SI 0) "kelvin" ∧
    celsiusUnit.convert_to_SI 0 = 273.15 ∧
    celsiusUnit.convert_to_SI 100 = 373.15 := by
  refine ⟨rfl, rfl, rfl, rfl, rfl, ?_, ?_⟩ <;> norm_num [celsiusUnit, Unit'.convert_to_SI]

/-- Claim C4: celsius and fahrenheit carry the constants of the specification,
but the kelvin unit is constructed with offset 1, not 0 (and with the celsius
alias list), so the base unit of the temperature set is not an identity
conversion. -/
theorem C4_temperature_constants :
    builtinUH.temperature.SI_unit = "kelvin" ∧
    celsiusUnit.SI_ratio = 1 ∧ celsiusUnit.SI_offset = 273.15 ∧
    fahrenheitUnit.SI_ratio = 5 / 9 ∧ fahrenheitUnit.SI_offset = 255.372 ∧
    kelvinUnit.SI_ratio = 1 ∧ kelvinUnit.SI_offset = 1 ∧
    kelvinUnit.allnames = ["C", "degC", "deg C"] :=
  ⟨rfl, rfl, rfl, rfl, rfl, rfl, rfl, rfl⟩

/-- Claim C5: the name vanilla resolves to the built-in vanilla ingredient,
which has no density; converting any magnitude from cup to gram raises
MissingDensityError, while cup to liter succeeds with no density involved. -/
theorem C5_vanilla_missing_density (m : ℚ) :
    builtinIngredients.match_name "vanilla" = some vanillaIng ∧
    vanillaIng.density = none ∧
    vanillaIng.convert m "cup" (some "gram") = .err .MissingDensityError ∧
    vanillaIng.convert m "cup" (some "liter") =
      .ok (literUnit.convert_from_SI (cupUnit.convert_to_SI m)) "liter" := by
  have h1 : builtinUH.volume.match_unit "cup" = some cupUnit := rfl
  have h2 : builtinUH.mass.match_unit "cup" = none := rfl
  have h3 : builtinUH.volume.match_unit "gram" = none := rfl
  have h4 : builtinUH.mass.match_unit "gram" = some gramUnit := rfl
  have h5 : builtinUH.volume.match_unit "liter" = some literUnit := rfl
  have h6 : builtinUH.mass.match_unit "liter" = none := rfl
  refine ⟨rfl, rfl, ?_, ?_⟩
  · simp [Ingredient.convert, vanillaIng, h1, h2, h3, h4]
  · simp [Ingredient.convert, vanillaIng, h1, h2, h5, h6]

/-- Counterexample to C6 as stated: the string g matches both the volume set
(gallon) and the mass set (gram), yet converting from g to an unmatched
to_unit raises UnmatchedUnitError, not AmbiguousUnitError, because the
unmatched checks run first. -/
theorem C6_ambiguity_counterexample :
    builtinUH.volume.match_unit "g" = some gallonUnit ∧
    builtinUH.mass.match_unit "g" = some gramUnit ∧
    flourIng.convert 1 "g" (some "zzz") = .err .UnmatchedUnitError ∧
    flourIng.convert 1 "g" (some "zzz") ≠ .err .AmbiguousUnitError :=
  ⟨rfl, rfl, rfl, by decide⟩

/-- Claim C6 amended: AmbiguousUnitError is raised exactly when both unit
strings match at least one category and at least one of them matches both the
volume and the mass set; when either string matches neither category the
unmatched check takes precedence. A doubly matching string still never yields
a numeric result. -/
theorem C6_ambiguity_amended (i : Ingredient) (m : ℚ) (fu tu : String) :
    (i.convert m fu (some tu) = .err .AmbiguousUnitError ↔
      ¬(i.uh.volume.match_unit fu = none ∧ i.uh.mass.match_unit fu = none) ∧
      ¬(i.uh.volume.match_unit tu = none ∧ i.uh.mass.match_unit tu = none) ∧
      ((i.uh.volume.match_unit fu).isSome ∧ (i.uh.mass.match_unit fu).isSome ∨
       (i.uh.volume.match_unit tu).isSome ∧ (i.uh.mass.match_unit tu).isSome)) ∧
    (((i.uh.volume.match_unit fu).isSome ∧ (i.uh.mass.match_unit fu).isSome ∨
      (i.uh.volume.match_unit tu).isSome ∧ (i.uh.mass.match_unit tu).isSome) →
      ∀ r u, i.convert m fu (some tu) ≠ .ok r u) := by
  rcases hv1 : i.uh.volume.match_unit fu with _ | u1 <;>
  rcases hm1 : i.uh.mass.match_unit fu with _ | w1 <;>
  rcases hv2 : i.uh.volume.match_unit tu with _ | u2 <;>
  rcases hm2 : i.uh.mass.match_unit tu with _ | w2 <;>
    simp [Ingredient.convert, hv1, hm1, hv2, hm2] <;>
    cases i.density <;> simp

/-- Witness for the amended C6: converting flour from the doubly matching g to
cup raises AmbiguousUnitError. -/
theorem C6_ambiguity_amended_witness :
    flourIng.convert 1 "g" (some "cup") = .err .AmbiguousUnitError :=
  (C6_ambiguity_amended flourIng 1 "g" "cup").1.mpr (by decide)

/-- Claim C7: for units with nonzero ratio, from_SI inverts to_SI exactly over
the rationals, and converting through a second such unit and back returns the
original magnitude exactly. -/
theorem C7_round_trip (u v : Unit') (m : ℚ) (hu : u.SI_ratio ≠ 0) (hv : v.SI_ratio ≠ 0) :
    u.convert_from_SI (u.convert_to_SI m) = m ∧
    u.convert_from_SI (v.convert_to_SI (v.convert_from_SI (u.convert_to_SI m))) = m := by
  unfold Unit'.convert_from_SI Unit'.convert_to_SI
  constructor
  · field_simp
  · field_simp

/-- Witness for C7: liter and deciliter, two volume units, round trip the
magnitude 3 exactly. -/
theorem C7_round_trip_witness :
    literUnit.SI_ratio ≠ 0 ∧ deciliterUnit.SI_ratio ≠ 0 ∧
    (literUnit.convert_from_SI (literUnit.convert_to_SI 3) = 3 ∧
     literUnit.convert_from_SI
       (deciliterUnit.convert_to_SI (deciliterUnit.convert_from_SI (literUnit.convert_to_SI 3))) = 3) :=
  ⟨by norm_num [literUnit], by norm_num [deciliterUnit],
   C7_round_trip literUnit deciliterUnit 3 (by norm_num [literUnit]) (by norm_num [deciliterUnit])⟩

/-- Claim C8: on the volume set, the string T selects the tablespoon unit and
the string t selects the teaspoon unit; the case-sensitive teaspoon rejects T,
and teaspoon sits before tablespoon in the first-match order. -/
theorem C8_case_sensitive_first_match :
    builtinUH.volume.match_unit "T" = some tablespoonUnit ∧
    builtinUH.volume.match_unit "t" = some teaspoonUnit ∧
    teaspoonUnit.matches "T" = false ∧
    (builtinUH.volume.units.map Unit'.name).indexOf "teaspoon"
      < (builtinUH.volume.units.map Unit'.name).indexOf "tablespoon" :=
  ⟨rfl, rfl, by decide, by decide⟩

/-- Claim C9: with the built-in seed set the name cinnamon matches no
ingredient and conversion raises UnmatchedIngredientError; in general the
dispatcher raises that error exactly when the name lookup fails. -/
theorem C9_unmatched_ingredient (h : IngredientsHandler) (name : String) (m : ℚ)
    (fu tu : String) :
    builtinIngredients.convert "cinnamon" 1 "tsp" "ml" = .err .UnmatchedIngredientError ∧
    (h.convert name m fu tu = .err .UnmatchedIngredientError ↔ h.match_name name = none) := by
  refine ⟨rfl, ?_⟩
  rcases hm : h.match_name name with _ | i
  · simp [IngredientsHandler.convert, hm]
  · simp [IngredientsHandler.convert, hm, ingredient_convert_no_ingredient_error]

/-- Witness for C9: the failing lookup instantiated at cinnamon. -/
theorem C9_unmatched_ingredient_witness :
    builtinIngredients.match_name "cinnamon" = none :=
  (C9_unmatched_ingredient builtinIngredients "cinnamon" 1 "tsp" "ml").2.mp
    (C9_unmatched_ingredient builtinIngredients "cinnamon" 1 "tsp" "ml").1

/-- Claim C10: no unit registered in any of the three built-in sets carries
the sentinel ratio of minus one, the sentinel strings package, bag and can
match no volume or mass unit, and every conversion through the built-in
registry that uses one of them as source or target raises UnmatchedUnitError,
so the sentinel ratio never reaches any arithmetic. -/
theorem C10_sentinel_units_unreachable (i : Ingredient) (m : ℚ) (s other : String)
    (hi : i.uh = builtinUH) (hs : s = "package" ∨ s = "bag" ∨ s = "can") :
    (∀ u ∈ builtinUH.volume.units, u.SI_ratio ≠ -1) ∧
    (∀ u ∈ builtinUH.mass.units, u.SI_ratio ≠ -1) ∧
    (∀ u ∈ builtinUH.temperature.units, u.SI_ratio ≠ -1) ∧
    builtinUH.volume.match_unit s = none ∧
    builtinUH.mass.match_unit s = none ∧
    i.convert m s (some other) = .err .UnmatchedUnitError ∧
    i.convert m other (some s) = .err .UnmatchedUnitError := by
  have hv : builtinUH.volume.match_unit s = none := by
    rcases hs with h | h | h <;> subst h <;> rfl
  have hm : builtinUH.mass.match_unit s = none := by
    rcases hs with h | h | h <;> subst h <;> rfl
  refine ⟨?_, ?_, ?_, hv, hm, ?_, ?_⟩
  · norm_num [builtinUH, builtinVolume, List.forall_mem_cons, literUnit, deciliterUnit,
      milliliterUnit, dropUnit, smidgenUnit, pinchUnit, dashUnit, saltspoonUnit,
      coffeespoonUnit, fluidDramUnit, teaspoonUnit, dessertspoonUnit, tablespoonUnit,
      fluidOunceUnit, wineglassUnit, teacupUnit, cupUnit, pintUnit, quartUnit, pottleUnit,
      gallonUnit]
  · norm_num [builtinUH, builtinMass, List.forall_mem_cons, kilogramUnit, gramUnit, poundUnit]
  · norm_num [builtinUH, builtinTemperature, List.forall_mem_cons, fahrenheitUnit, celsiusUnit,
      kelvinUnit]
  · simp [Ingredient.convert, hi, hv, hm]
  · simp only [Ingredient.convert, hi, Option.getD_some]
    rw [hv, hm]
    by_cases h1 : builtinUH.volume.match_unit other = none ∧ builtinUH.mass.match_unit other = none
    · simp [h1]
    · simp [h1]

/-- Witness for C10: flour, one cup, and the sentinel package both ways. -/
theorem C10_sentinel_units_unreachable_witness :
    flourIng.convert 1 "package" (some "cup") = .err .UnmatchedUnitError ∧
    flourIng.convert 1 "cup" (some "package") = .err .UnmatchedUnitError :=
  ⟨(C10_sentinel_units_unreachable flourIng 1 "package" "cup" rfl (Or.inl rfl)).2.2.2.2.2.1,
   (C10_sentinel_units_unreachable flourIng 1 "package" "cup" rfl (Or.inl rfl)).2.2.2.2.2.2⟩
